import Mathlib

/-
Shallow embedding of the AutoCoder command-line agent (src/main.py).

The program is an interactive dispatcher: it reads a line, splits off the
first whitespace-delimited token, lowercases it, and routes to a handler.
External collaborators (API client, project manager, executor, error
handler, UI prompts/confirms, logger) are not part of the source file; they
are modelled as an `Env` of function-valued parameters, and every
observable action (printing, prompting, calling a collaborator) is recorded
as an `Event` in an output trace.  Each handler is a function
`Env → State → ... → State × List Event` translated branch by branch from
the Python source.  Python truthiness of optional strings (`None` and `""`
both falsy) is modelled by `truthy`.  The mutual recursion between
`_run_current_project` and `_handle_retry` (run fails → user confirms fix →
retry → fix succeeds → run again) is modelled by the fuel-indexed
`run_retry_step`, with the fuel only cutting off that unbounded cycle;
`ui.progress` context-manager frames are not modelled as events.
-/

/- ### Python string primitives used by the dispatcher -/

/-- Characters treated as whitespace by Python `str.split()` / `str.strip()`
(ASCII fragment; the source only ever feeds it terminal input). -/
def pyIsSpace (c : Char) : Bool :=
  c = ' ' || c = '\t' || c = '\n' || c = '\r' || c = '\x0b' || c = '\x0c'

/-- Python `str.strip()`: drop leading and trailing whitespace. -/
def pyStrip (s : String) : String :=
  String.mk (((s.toList.dropWhile pyIsSpace).reverse.dropWhile pyIsSpace).reverse)

/-- Python `str.split(maxsplit=1)`: `none` when the string has no token
(Python returns `[]`, and `parts[0]` would raise `IndexError`); otherwise
the first token and the remainder after the separating whitespace run
(`""` when only one part exists, matching `parts[1] if len(parts) > 1 else ""`). -/
def pySplitMax1 (s : String) : Option (String × String) :=
  let cs := s.toList.dropWhile pyIsSpace
  if cs = [] then none
  else
    some (String.mk (cs.takeWhile (fun c => !pyIsSpace c)),
          String.mk ((cs.dropWhile (fun c => !pyIsSpace c)).dropWhile pyIsSpace))

/-- Python `str.lower()` (ASCII fragment). -/
def pyLower (s : String) : String :=
  String.mk (s.toList.map Char.toLower)

/-- Python `str.isdigit()` (ASCII fragment): nonempty and all digits. -/
def pyIsDigit (s : String) : Bool :=
  s != "" && s.toList.all Char.isDigit

/-- Python `int(s)` for a digit string. -/
def pyToNat (s : String) : Nat :=
  s.toList.foldl (fun a c => a * 10 + (c.toNat - 48)) 0

/-- Python truthiness of an optional string: `None` and `""` are falsy. -/
def truthy : Option String → Bool
  | none => false
  | some st => st != ""

/-- Whether `small` occurs at the start of `big`. -/
def listStartsWith : List Char → List Char → Bool
  | [], _ => true
  | _ :: _, [] => false
  | a :: as, b :: bs => a == b && listStartsWith as bs

/-- Whether `small` occurs contiguously inside `big` (Python `small in big`). -/
def listHasSub (small : List Char) : List Char → Bool
  | [] => small.isEmpty
  | c :: cs => listStartsWith small (c :: cs) || listHasSub small cs

/-- Python `needle in hay` for strings. -/
def strContains (hay needle : String) : Bool :=
  listHasSub needle.toList hay.toList

/- ### Data model -/

/-- The project specification returned by `client.generate_project`:
`project_data["name"]`, `project_data.get("dependencies")` (absent and `[]`
are both falsy, so an empty list covers both), and
`project_data.get("auto_run", False)`. -/
structure ProjectData where
  name : String
  dependencies : List String
  auto_run : Bool
  deriving DecidableEq

/-- The result of `executor.run_project` (§ CommandResult): success flag and
optional url / output / error strings. -/
structure RunResult where
  success : Bool
  url : Option String
  output : Option String
  error : Option String
  deriving DecidableEq

/-- Metadata returned by `project_manager.get_project_info`; only the
`type` and `language` keys are read by the dispatcher (`_handle_status`). -/
structure ProjectInfo where
  type : Option String
  language : Option String
  deriving DecidableEq

/-- Opaque change set returned by `client.edit_project`; the dispatcher only
tests its truthiness and forwards it to `apply_changes`. -/
abbrev ChangeSet := String

/-- Mutable state owned by the session: the project manager's
current-project pointer and the dispatcher's `running` flag. -/
structure State where
  current_project : Option String
  running : Bool
  deriving DecidableEq

/-- Observable actions of a handler: UI prints and prompts, and calls to the
external collaborators.  `unexpectedError` stands for the run loop's generic
`except Exception` report; `fuelExhausted` marks the cut-off of the
unbounded run/retry cycle and occurs on no bounded execution. -/
inductive Event where
  | printError (msg : String)
  | printInfo (msg : String)
  | printSuccess (msg : String)
  | printWarning (msg : String)
  | printOutput (msg : String)
  | printRaw (msg : String)
  | showHelp
  | promptUser (msg : String)
  | confirmUser (msg : String)
  | callGenerateProject (description : String)
  | callCreateProject (name : String)
  | callInstallDependencies (path : String) (deps : List String)
  | callRunProject (path : String)
  | callFixErrors (path : String)
  | callEditProject (instruction : String)
  | callApplyChanges (path : String)
  | callGetProjectInfo (path : String)
  | unexpectedError
  | fuelExhausted
  deriving DecidableEq

/-- The external collaborators, as referentially transparent oracles: one
field per operation the dispatcher consumes.  `prompt` and `confirm` are
keyed by the message shown to the user. -/
structure Env where
  generate_project : String → Option ProjectData
  create_project : String → ProjectData → String
  install_dependencies : String → List String → Bool
  run_project : String → RunResult
  get_project_path : String → Option String
  list_projects : List String
  get_project_info : String → ProjectInfo
  edit_project : ProjectInfo → String → Option ChangeSet
  fix_project_errors : String → Bool
  confirm : String → Bool
  prompt : String → String
  get_recent_logs : Nat → List String

/- ### Handlers (translated from `AutoCoder` methods) -/

/-- The mutually recursive pair `_run_current_project` (tag `false`) and
`_handle_retry` (tag `true`), fuelled: each level of the cycle consumes one
unit of fuel, and `fuelExhausted` cuts off the (potentially unbounded)
run → confirm → retry → fix-succeeds → run loop. -/
def run_retry_step (env : Env) : Nat → Bool → State → State × List Event
  | 0, _, s => (s, [Event.fuelExhausted])
  | fuel + 1, false, s =>
    if truthy s.current_project then
      let current := s.current_project.getD ""
      let result := env.run_project current
      let evs := [Event.callRunProject current]
      if result.success then
        (s, evs ++ [Event.printSuccess "Project started successfully!"] ++
          (if truthy result.url then
            [Event.printInfo ("Server running at: " ++ result.url.getD "")] else []) ++
          (if truthy result.output then
            [Event.printOutput (result.output.getD "")] else []))
      else
        let evs := evs ++ [Event.printError "Project failed to start"] ++
          (if truthy result.error then
            [Event.printError (result.error.getD "")] else []) ++
          [Event.confirmUser "Would you like me to try to fix the error?"]
        if env.confirm "Would you like me to try to fix the error?" then
          let r := run_retry_step env fuel true s
          (r.1, evs ++ r.2)
        else (s, evs)
    else
      (s, [Event.printError
        "No project loaded. Use \x27new\x27 to create one or \x27load\x27 to load existing."])
  | fuel + 1, true, s =>
    if truthy s.current_project then
      let current := s.current_project.getD ""
      let evs := [Event.printInfo "Analyzing and fixing errors...",
                  Event.callFixErrors current]
      if env.fix_project_errors current then
        let evs := evs ++ [Event.printSuccess "Errors fixed! Trying to run again..."]
        let r := run_retry_step env fuel false s
        (r.1, evs ++ r.2)
      else
        (s, evs ++ [Event.printError "Could not automatically fix the errors"])
    else (s, [Event.printError "No project loaded"])

/-- `_run_current_project`: one entry into the run/retry cycle.  `fuel`
bounds only the depth of the user-confirmed retry recursion. -/
def run_current_project (env : Env) (fuel : Nat) (s : State) : State × List Event :=
  run_retry_step env (fuel + 1) false s

/-- `_handle_retry`. -/
def handle_retry (env : Env) (fuel : Nat) (s : State) : State × List Event :=
  run_retry_step env (fuel + 1) true s

/-- `_handle_new_project`: prompt for a description when the argument is
empty, generate the project via the API, create the files, install
dependencies (a failure only prints a warning), set the current project,
report success, and auto-run when requested. -/
def handle_new_project (env : Env) (fuel : Nat) (s : State) (description0 : String) :
    State × List Event :=
  let promptEvs :=
    if description0 = "" then [Event.promptUser "Describe your project: "] else []
  let description :=
    if description0 = "" then env.prompt "Describe your project: " else description0
  if description = "" then
    (s, promptEvs ++ [Event.printError "Project description is required"])
  else
    let evs := promptEvs ++
      [Event.printInfo ("Creating new project: " ++ description),
       Event.callGenerateProject description]
    match env.generate_project description with
    | none => (s, evs ++ [Event.printError "Failed to generate project"])
    | some pd =>
      let project_path := env.create_project pd.name pd
      let evs := evs ++ [Event.callCreateProject pd.name]
      let evs := evs ++
        (if pd.dependencies ≠ [] then
          [Event.callInstallDependencies project_path pd.dependencies] ++
            (if env.install_dependencies project_path pd.dependencies then []
             else [Event.printWarning "Some dependencies failed to install"])
         else [])
      let s1 : State := { s with current_project := some project_path }
      let evs := evs ++
        [Event.printSuccess ("Project created successfully at: " ++ project_path)]
      if pd.auto_run then
        let r := run_current_project env fuel s1
        (r.1, evs ++ [Event.printInfo "Starting project..."] ++ r.2)
      else (s1, evs)

/-- `_handle_run_project`: with a (truthy) name argument, resolve it via
`get_project_path`, report an error when absent, otherwise set the current
project; in either case fall through to `_run_current_project`. -/
def handle_run_project (env : Env) (fuel : Nat) (s : State) (project_name : String) :
    State × List Event :=
  if project_name ≠ "" then
    let pp := env.get_project_path project_name
    if truthy pp then
      run_current_project env fuel { s with current_project := pp }
    else
      (s, [Event.printError ("Project \x27" ++ project_name ++ "\x27 not found")])
  else run_current_project env fuel s

/-- `_handle_edit_project`: requires a current project, prompts for an
instruction when the argument is empty, asks the API for changes, applies
truthy changes and optionally re-runs the project. -/
def handle_edit_project (env : Env) (fuel : Nat) (s : State) (instruction0 : String) :
    State × List Event :=
  if truthy s.current_project then
    let current := s.current_project.getD ""
    let promptEvs :=
      if instruction0 = "" then [Event.promptUser "What would you like to change? "] else []
    let instruction :=
      if instruction0 = "" then env.prompt "What would you like to change? " else instruction0
    if instruction = "" then
      (s, promptEvs ++ [Event.printError "Edit instruction is required"])
    else
      let evs := promptEvs ++
        [Event.printInfo ("Applying changes: " ++ instruction),
         Event.callGetProjectInfo current,
         Event.callEditProject instruction]
      match env.edit_project (env.get_project_info current) instruction with
      | some _ =>
        let evs := evs ++
          [Event.callApplyChanges current,
           Event.printSuccess "Changes applied successfully!",
           Event.confirmUser "Would you like to run the updated project?"]
        if env.confirm "Would you like to run the updated project?" then
          let r := run_current_project env fuel s
          (r.1, evs ++ r.2)
        else (s, evs)
      | none => (s, evs ++ [Event.printError "Failed to generate changes"])
  else (s, [Event.printError "No project loaded"])

/-- `_handle_show_logs`: fetch the last 50 log lines, filter by a truthy
term (case-insensitive substring), print them or report none. -/
def handle_show_logs (env : Env) (s : State) (filter_term : String) :
    State × List Event :=
  let logs := env.get_recent_logs 50
  let logs :=
    if filter_term ≠ "" then
      logs.filter (fun l => strContains (pyLower l) (pyLower filter_term))
    else logs
  if logs ≠ [] then
    (s, [Event.printInfo "Recent logs:"] ++ logs.map Event.printRaw)
  else (s, [Event.printInfo "No logs found"])

/-- `_handle_list_projects`: print each project name, marking the one equal
to the current-project pointer. -/
def handle_list_projects (env : Env) (s : State) : State × List Event :=
  let projects := env.list_projects
  if projects ≠ [] then
    (s, [Event.printInfo "Available projects:"] ++
      projects.map (fun p =>
        Event.printInfo ("  - " ++ p ++
          (if (match s.current_project with
               | some c => p == c
               | none => false) then " (current)" else ""))))
  else (s, [Event.printInfo "No projects found"])

/-- The numbered listing and selection prompt shown by `_handle_load_project`
when invoked without an argument and projects exist. -/
def loadMenuEvents (projects : List String) : List Event :=
  [Event.printInfo "Available projects:"] ++
    projects.enum.map (fun ip =>
      Event.printInfo ("  " ++ toString (ip.1 + 1) ++ ". " ++ ip.2)) ++
    [Event.promptUser "Select project (number or name): "]

/-- The tail of `_handle_load_project`: resolve a name via
`get_project_path`; a truthy path becomes the current project, otherwise an
error names the project. -/
def loadResolve (env : Env) (s : State) (project_name : String) (evs : List Event) :
    State × List Event :=
  let pp := env.get_project_path project_name
  if truthy pp then
    ({ s with current_project := pp },
     evs ++ [Event.printSuccess ("Loaded project: " ++ project_name)])
  else
    (s, evs ++ [Event.printError ("Project \x27" ++ project_name ++ "\x27 not found")])

/-- `_handle_load_project`: with an empty argument, list projects, prompt
for a choice, and interpret an all-digit choice as a 1-based index (bounds
checked); any other choice, and any nonempty argument, is a project name. -/
def handle_load_project (env : Env) (s : State) (project_name0 : String) :
    State × List Event :=
  if project_name0 = "" then
    let projects := env.list_projects
    if projects = [] then (s, [Event.printError "No projects available"])
    else
      let evs := loadMenuEvents projects
      let choice := env.prompt "Select project (number or name): "
      if pyIsDigit choice then
        let idx : Int := (pyToNat choice : Int) - 1
        if 0 ≤ idx ∧ idx < (projects.length : Int) then
          loadResolve env s (projects.getD idx.toNat "") evs
        else (s, evs ++ [Event.printError "Invalid selection"])
      else loadResolve env s choice evs
  else loadResolve env s project_name0 []

/-- `_handle_status`: print the header, the current-project pointer (the
Python `or` renders falsy pointers as `None`), and, for a truthy pointer,
the stored type and language. -/
def handle_status (env : Env) (s : State) : State × List Event :=
  let cur := s.current_project
  let evs := [Event.printInfo "=== AutoCoder Status ===",
              Event.printInfo "API Status: Connected",
              Event.printInfo ("Current Project: " ++
                (if truthy cur then cur.getD "" else "None"))]
  if truthy cur then
    let info := env.get_project_info (cur.getD "")
    (s, evs ++ [Event.callGetProjectInfo (cur.getD ""),
                Event.printInfo ("Project Type: " ++ info.type.getD "Unknown"),
                Event.printInfo ("Language: " ++ info.language.getD "Unknown")])
  else (s, evs)

/-- `_handle_natural_language`: a truthy current project routes the whole
line to the edit handler, otherwise to new-project creation. -/
def handle_natural_language (env : Env) (fuel : Nat) (s : State) (instruction : String) :
    State × List Event :=
  if truthy s.current_project then handle_edit_project env fuel s instruction
  else handle_new_project env fuel s instruction

/-- The command tokens recognized by `_handle_command`. -/
def recognizedCommands : List String :=
  ["exit", "quit", "q", "new", "run", "edit", "retry", "logs", "list",
   "load", "status", "help", "?"]

/-- `_handle_command`: split off the first token, lowercase it, dispatch.
`none` models the `IndexError` Python raises on `parts[0]` when the line
has no token (unreachable from the stripping run loop). -/
def handle_command (env : Env) (fuel : Nat) (s : State) (command : String) :
    Option (State × List Event) :=
  match pySplitMax1 command with
  | none => none
  | some (tok, args) =>
    let cmd := pyLower tok
    if cmd = "exit" ∨ cmd = "quit" ∨ cmd = "q" then
      some ({ s with running := false }, [Event.printInfo "Goodbye!"])
    else if cmd = "new" then some (handle_new_project env fuel s args)
    else if cmd = "run" then some (handle_run_project env fuel s args)
    else if cmd = "edit" then some (handle_edit_project env fuel s args)
    else if cmd = "retry" then some (handle_retry env fuel s)
    else if cmd = "logs" then some (handle_show_logs env s args)
    else if cmd = "list" then some (handle_list_projects env s)
    else if cmd = "load" then some (handle_load_project env s args)
    else if cmd = "status" then some (handle_status env s)
    else if cmd = "help" ∨ cmd = "?" then some (s, [Event.showHelp])
    else some (handle_natural_language env fuel s command)

/-- One iteration of `AutoCoder.run`'s loop on a line of input: skip falsy
or whitespace-only input, otherwise dispatch the stripped line; an escaped
exception is caught and reported generically. -/
def runLoopIter (env : Env) (fuel : Nat) (s : State) (command : String) :
    State × List Event :=
  if command = "" || pyStrip command = "" then (s, [])
  else
    match handle_command env fuel s (pyStrip command) with
    | some r => r
    | none => (s, [Event.unexpectedError])

/-- How the top level of `main` finishes: normally, by `KeyboardInterrupt`,
or by an exception escaping to the outer `except` (construction failure, or
a crash inside the dispatched command). -/
inductive TopOutcome where
  | normal
  | keyboardInterrupt
  | fatal
  deriving DecidableEq

/-- The process exit code of `main`, translated from its branch structure:
a fatal exception exits 1 and `KeyboardInterrupt` exits 0; one-shot mode
(nonempty `args.command`) exits 1 when `initialize` fails, else falls off
the end (0).  Interactive mode calls `AutoCoder.run`, which merely returns
when `initialize` fails, so `main` falls off the end with exit code 0. -/
def mainExitCode (initOk : Bool) (cliCommand : List String) (top : TopOutcome) : Nat :=
  match top with
  | .keyboardInterrupt => 0
  | .fatal => 1
  | .normal =>
    if cliCommand ≠ [] then (if initOk then 0 else 1)
    else 0

/- ### Concrete fixtures used by witnesses and counterexamples -/

/-- A sample generated project specification. -/
def pd0 : ProjectData :=
  { name := "todo-app", dependencies := [], auto_run := false }

/-- A sample project specification with dependencies. -/
def pd10 : ProjectData :=
  { name := "todo-app", dependencies := ["flask"], auto_run := false }

/-- A small concrete environment: two projects on disk, of which only
`beta` resolves to a path; generation succeeds only for `todo app`. -/
def env0 : Env :=
  { generate_project := fun d => if d = "todo app" then some pd0 else none
    create_project := fun n _ => "projects/" ++ n
    install_dependencies := fun _ _ => true
    run_project := fun _ =>
      { success := true, url := none, output := none, error := none }
    get_project_path := fun n => if n = "beta" then some "/p/beta" else none
    list_projects := ["alpha", "beta"]
    get_project_info := fun _ => { type := none, language := none }
    edit_project := fun _ _ => none
    fix_project_errors := fun _ => false
    confirm := fun _ => false
    prompt := fun _ => ""
    get_recent_logs := fun _ => [] }

/-- `env0` with no projects on disk. -/
def envEmpty : Env := { env0 with list_projects := [] }

/-- `env0` whose selection prompt answers `2`. -/
def env2 : Env := { env0 with prompt := fun _ => "2" }

/-- `env0` whose executor fails with an error message. -/
def env6 : Env :=
  { env0 with run_project := fun _ =>
      { success := false, url := none, output := none,
        error := some "ModuleNotFoundError" } }

/-- `env0` whose generator yields a project with dependencies and whose
dependency installation fails. -/
def env10 : Env :=
  { env0 with
    generate_project := fun d => if d = "todo app" then some pd10 else none
    install_dependencies := fun _ _ => false }

/-- Session state with no current project. -/
def s0 : State := { current_project := none, running := true }

/-- Session state with a current project. -/
def s1 : State := { current_project := some "/p/alpha", running := true }

/- ### Helper lemmas -/

/-- Neither `_run_current_project` nor `_handle_retry` modifies the session
state: every branch returns the incoming state. -/
theorem run_retry_step_fst (env : Env) :
    ∀ (fuel : Nat) (tag : Bool) (s : State), (run_retry_step env fuel tag s).1 = s := by
  intro fuel
  induction fuel with
  | zero => intro tag s; rfl
  | succ k ih =>
    intro tag s
    cases tag <;> simp only [run_retry_step] <;> split
    · split
      · rfl
      · split
        · simp [ih]
        · rfl
    · rfl
    · split
      · simp [ih]
      · rfl
    · rfl

/-- After a successful generation, `_handle_new_project` leaves the
current-project pointer at the path returned by `create_project`,
regardless of dependency installation outcome and auto-run. -/
theorem new_project_current (env : Env) (fuel : Nat) (s : State)
    (description d : String) (pd : ProjectData)
    (hd : (if description = "" then env.prompt "Describe your project: " else description) = d)
    (hne : d ≠ "") (hgen : env.generate_project d = some pd) :
    ((handle_new_project env fuel s description).1).current_project =
      some (env.create_project pd.name pd) := by
  simp [handle_new_project, run_current_project, hd, hne, hgen]
  split <;> simp [run_retry_step_fst]

/-- Claim C1: an input line whose first whitespace-delimited token,
lowercased, is not a recognized command is routed whole as a
natural-language instruction: to the edit handler when the current project
is set, to the new-project handler when it is unset. -/
theorem c1_unrecognized_dispatch (env : Env) (fuel : Nat) (s : State)
    (command tok args : String)
    (hsplit : pySplitMax1 command = some (tok, args))
    (hnr : pyLower tok ∉ recognizedCommands) :
    handle_command env fuel s command =
      some (if truthy s.current_project then handle_edit_project env fuel s command
            else handle_new_project env fuel s command) := by
  simp only [recognizedCommands, List.mem_cons, List.not_mem_nil, or_false, not_or] at hnr
  obtain ⟨h1, h2, h3, h4, h5, h6, h7, h8, h9, h10, h11, h12, h13⟩ := hnr
  simp [handle_command, hsplit, handle_natural_language,
    h1, h2, h3, h4, h5, h6, h7, h8, h9, h10, h11, h12, h13]

/-- Witness for C1: a concrete unrecognized line with no current project is
routed to the new-project handler. -/
theorem c1_witness :
    pySplitMax1 "make me a website" = some ("make", "me a website") ∧
    pyLower "make" ∉ recognizedCommands ∧
    handle_command env0 1 s0 "make me a website" =
      some (handle_new_project env0 1 s0 "make me a website") := by
  refine ⟨by decide, by decide, ?_⟩
  have h := c1_unrecognized_dispatch env0 1 s0 "make me a website" "make" "me a website"
    (by decide) (by decide)
  simpa [s0, truthy] using h

/-- Claim C4: when `new` completes successfully (the API returns project
data and `create_project` returns a path), the current-project pointer
afterwards is exactly the path returned by `create_project`. -/
theorem c4_new_sets_current (env : Env) (fuel : Nat) (s : State)
    (description d : String) (pd : ProjectData)
    (hd : (if description = "" then env.prompt "Describe your project: " else description) = d)
    (hne : d ≠ "") (hgen : env.generate_project d = some pd) :
    ((handle_new_project env fuel s description).1).current_project =
      some (env.create_project pd.name pd) :=
  new_project_current env fuel s description d pd hd hne hgen

/-- Witness for C4 at a concrete description and environment. -/
theorem c4_witness :
    env0.generate_project "todo app" = some pd0 ∧
    ((handle_new_project env0 1 s0 "todo app").1).current_project =
      some "projects/todo-app" := by
  refine ⟨by decide, ?_⟩
  exact c4_new_sets_current env0 1 s0 "todo app" "todo app" pd0 (by decide) (by decide)
    (by decide)

/-- Claim C5: the `run` command with no argument while no current project
is set never calls the executor and reports the no-project error. -/
theorem c5_run_without_project (env : Env) (fuel : Nat) (s : State)
    (h : s.current_project = none) :
    handle_command env fuel s "run" =
      some (s, [Event.printError
        "No project loaded. Use \x27new\x27 to create one or \x27load\x27 to load existing."]) := by
  have h0 : handle_command env fuel s "run"
      = some (run_retry_step env (fuel + 1) false s) := rfl
  rw [h0]
  simp [run_retry_step, truthy, h]

/-- Witness for C5 at the empty session state. -/
theorem c5_witness :
    s0.current_project = none ∧
    handle_command env0 0 s0 "run" =
      some (s0, [Event.printError
        "No project loaded. Use \x27new\x27 to create one or \x27load\x27 to load existing."]) :=
  ⟨rfl, c5_run_without_project env0 0 s0 rfl⟩

/-- Claim C7: `load` with no argument and an empty project listing reports
an error, shows no selection prompt, and leaves the state unchanged. -/
theorem c7_load_no_projects (env : Env) (s : State)
    (h : env.list_projects = []) :
    handle_load_project env s "" = (s, [Event.printError "No projects available"]) := by
  simp [handle_load_project, h]

/-- Witness for C7 in the environment with no projects. -/
theorem c7_witness :
    envEmpty.list_projects = [] ∧
    handle_load_project envEmpty s0 "" =
      (s0, [Event.printError "No projects available"]) :=
  ⟨rfl, c7_load_no_projects envEmpty s0 rfl⟩

/-- Claim C8: an input line that is empty or whitespace-only after trimming
makes the dispatch loop call no handler and print nothing, leaving the
state unchanged for the next iteration. -/
theorem c8_blank_input_skipped (env : Env) (fuel : Nat) (s : State) (command : String)
    (h : pyStrip command = "") :
    runLoopIter env fuel s command = (s, []) := by
  simp [runLoopIter, h]

/-- Witness for C8 on a whitespace-only line. -/
theorem c8_witness :
    pyStrip "   " = "" ∧ runLoopIter env0 1 s0 "   " = (s0, []) :=
  ⟨by decide, c8_blank_input_skipped env0 1 s0 "   " (by decide)⟩

/-- Claim C9: `run` with a name argument that `get_project_path` does not
resolve reports an error naming the project, never calls the executor, and
leaves the current-project pointer unchanged. -/
theorem c9_run_unknown_name (env : Env) (fuel : Nat) (s : State) (name : String)
    (hname : name ≠ "") (hpath : env.get_project_path name = none) :
    handle_run_project env fuel s name =
      (s, [Event.printError ("Project \x27" ++ name ++ "\x27 not found")]) := by
  simp [handle_run_project, hname, hpath, truthy]

/-- Witness for C9 at a concrete unknown project name. -/
theorem c9_witness :
    ("nope" : String) ≠ "" ∧ env0.get_project_path "nope" = none ∧
    handle_run_project env0 1 s0 "nope" =
      (s0, [Event.printError "Project \x27nope\x27 not found"]) := by
  refine ⟨by decide, by decide, ?_⟩
  exact c9_run_unknown_name env0 1 s0 "nope" (by decide) (by decide)

/-- Counterexample to claim C2 as stated: invoking `load` with the numeric
argument `2` while two projects exist does not select the second project by
index; the argument is looked up verbatim as a project name, the lookup
fails, and the current-project pointer is unchanged. -/
theorem c2_counterexample :
    env0.list_projects = ["alpha", "beta"] ∧
    env0.get_project_path "beta" = some "/p/beta" ∧
    handle_load_project env0 s0 "2" =
      (s0, [Event.printError "Project \x272\x27 not found"]) ∧
    (handle_load_project env0 s0 "2").1.current_project ≠ some "/p/beta" := by
  refine ⟨rfl, rfl, rfl, by decide⟩

/-- Claim C2 (amended): the 1-based index selection applies to the numeric
choice entered at the selection prompt of an argument-less `load`: an
in-range choice selects the listing entry at that index (then resolved via
`get_project_path`), while an out-of-range choice reports an error and
changes no state. -/
theorem c2_load_numeric_choice (env : Env) (s : State) (choice p : String)
    (hne : env.list_projects ≠ [])
    (hprompt : env.prompt "Select project (number or name): " = choice)
    (hdigit : pyIsDigit choice = true) :
    (1 ≤ pyToNat choice → pyToNat choice ≤ env.list_projects.length →
      env.get_project_path (env.list_projects.getD (pyToNat choice - 1) "") = some p →
      p ≠ "" →
      (handle_load_project env s "").1.current_project = some p ∧
      Event.printSuccess ("Loaded project: " ++
          env.list_projects.getD (pyToNat choice - 1) "")
        ∈ (handle_load_project env s "").2) ∧
    ((pyToNat choice = 0 ∨ env.list_projects.length < pyToNat choice) →
      handle_load_project env s "" =
        (s, loadMenuEvents env.list_projects ++ [Event.printError "Invalid selection"])) := by
  constructor
  · intro h1 h2 hpath hp
    have hcond : (0 : Int) ≤ (pyToNat choice : Int) - 1 ∧
        (pyToNat choice : Int) - 1 < (env.list_projects.length : Int) := by omega
    have hidx : ((pyToNat choice : Int) - 1).toNat = pyToNat choice - 1 := by omega
    have heq : handle_load_project env s "" =
        loadResolve env s (env.list_projects.getD (pyToNat choice - 1) "")
          (loadMenuEvents env.list_projects) := by
      simp only [handle_load_project]
      rw [hprompt]
      simp only [hne, hdigit]
      simp only [if_pos hcond, hidx]
      simp
    have hres : loadResolve env s (env.list_projects.getD (pyToNat choice - 1) "")
        (loadMenuEvents env.list_projects) =
        ({ s with current_project := some p },
         loadMenuEvents env.list_projects ++
           [Event.printSuccess ("Loaded project: " ++
             env.list_projects.getD (pyToNat choice - 1) "")]) := by
      simp only [loadResolve]
      rw [hpath]
      simp [truthy, hp]
    rw [heq, hres]
    exact ⟨rfl, by simp⟩
  · intro hout
    have hcond : ¬((0 : Int) ≤ (pyToNat choice : Int) - 1 ∧
        (pyToNat choice : Int) - 1 < (env.list_projects.length : Int)) := by
      rcases hout with h | h <;> omega
    simp only [handle_load_project]
    rw [hprompt]
    simp only [hne, hdigit]
    simp only [if_neg hcond]
    simp

/-- Witness for the amended C2: prompt answer `2` with two listed projects
loads the second one. -/
theorem c2_witness :
    env2.list_projects ≠ [] ∧
    env2.prompt "Select project (number or name): " = "2" ∧
    pyIsDigit "2" = true ∧
    (handle_load_project env2 s0 "").1.current_project = some "/p/beta" := by
  refine ⟨by decide, rfl, by decide, ?_⟩
  exact ((c2_load_numeric_choice env2 s0 "2" "/p/beta" (by decide) rfl (by decide)).1
    (by decide) (by decide) (by decide) (by decide)).1

/-- Counterexample to claim C3 as stated: in interactive mode (no CLI
command words) a failed initialization makes `AutoCoder.run` return early,
`main` falls off the end, and the process exits 0, not 1. -/
theorem c3_counterexample :
    mainExitCode false [] TopOutcome.normal = 0 ∧
    mainExitCode false [] TopOutcome.normal ≠ 1 := by decide

/-- Claim C3 (amended): exit code 0 on graceful exit (`KeyboardInterrupt`,
normal interactive termination — including interactive-mode initialization
failure — and successful one-shot runs); exit code 1 on one-shot
initialization failure and on any fatal top-level exception. -/
theorem c3_exit_codes (initOk : Bool) (cli : List String) (w : String) :
    mainExitCode initOk cli TopOutcome.fatal = 1 ∧
    mainExitCode initOk cli TopOutcome.keyboardInterrupt = 0 ∧
    mainExitCode false (w :: cli) TopOutcome.normal = 1 ∧
    mainExitCode true cli TopOutcome.normal = 0 ∧
    mainExitCode initOk [] TopOutcome.normal = 0 := by
  refine ⟨rfl, rfl, by simp [mainExitCode], by simp [mainExitCode], rfl⟩

/-- Claim C6: `run` with a current project set, an executor failure carrying
an error string, and a declined fix confirmation never calls the error
handler; the failure report is the final output. -/
theorem c6_run_fail_decline (env : Env) (fuel : Nat) (s : State) (p emsg : String)
    (u o : Option String)
    (hcur : s.current_project = some p) (hp : p ≠ "")
    (hrun : env.run_project p =
      { success := false, url := u, output := o, error := some emsg })
    (hmsg : emsg ≠ "")
    (hconf : env.confirm "Would you like me to try to fix the error?" = false) :
    handle_command env fuel s "run" =
      some (s, [Event.callRunProject p,
                Event.printError "Project failed to start",
                Event.printError emsg,
                Event.confirmUser "Would you like me to try to fix the error?"]) := by
  have h0 : handle_command env fuel s "run"
      = some (run_retry_step env (fuel + 1) false s) := rfl
  rw [h0]
  simp [run_retry_step, truthy, hcur, hp, hrun, hmsg, hconf]

/-- Witness for C6: the failing executor environment with a declined fix. -/
theorem c6_witness :
    s1.current_project = some "/p/alpha" ∧
    env6.run_project "/p/alpha" =
      { success := false, url := none, output := none,
        error := some "ModuleNotFoundError" } ∧
    env6.confirm "Would you like me to try to fix the error?" = false ∧
    handle_command env6 1 s1 "run" =
      some (s1, [Event.callRunProject "/p/alpha",
                 Event.printError "Project failed to start",
                 Event.printError "ModuleNotFoundError",
                 Event.confirmUser "Would you like me to try to fix the error?"]) := by
  refine ⟨rfl, rfl, rfl, ?_⟩
  exact c6_run_fail_decline env6 1 s1 "/p/alpha" "ModuleNotFoundError" none none rfl
    (by decide) rfl (by decide) rfl

/-- Claim C10: during new-project creation, a failing
`install_dependencies` does not abort the operation: a warning is printed,
the current-project pointer is still set to the created path, and the
success message is still shown. -/
theorem c10_install_failure_no_abort (env : Env) (fuel : Nat) (s : State)
    (description d : String) (pd : ProjectData)
    (hd : (if description = "" then env.prompt "Describe your project: " else description) = d)
    (hne : d ≠ "") (hgen : env.generate_project d = some pd)
    (hdeps : pd.dependencies ≠ [])
    (hfail : env.install_dependencies (env.create_project pd.name pd) pd.dependencies
      = false) :
    ((handle_new_project env fuel s description).1).current_project =
        some (env.create_project pd.name pd) ∧
      Event.printWarning "Some dependencies failed to install"
        ∈ (handle_new_project env fuel s description).2 ∧
      Event.printSuccess
          ("Project created successfully at: " ++ env.create_project pd.name pd)
        ∈ (handle_new_project env fuel s description).2 := by
  refine ⟨new_project_current env fuel s description d pd hd hne hgen, ?_, ?_⟩ <;>
  · simp [handle_new_project, run_current_project, hd, hne, hgen, hdeps, hfail]
    split <;> simp

/-- Witness for C10: a generated project with one dependency whose
installation fails still becomes the current project. -/
theorem c10_witness :
    env10.generate_project "todo app" = some pd10 ∧
    pd10.dependencies ≠ [] ∧
    env10.install_dependencies (env10.create_project pd10.name pd10) pd10.dependencies
      = false ∧
    ((handle_new_project env10 1 s0 "todo app").1).current_project =
        some "projects/todo-app" ∧
      Event.printWarning "Some dependencies failed to install"
        ∈ (handle_new_project env10 1 s0 "todo app").2 := by
  refine ⟨by decide, by decide, by decide, ?_⟩
  have h := c10_install_failure_no_abort env10 1 s0 "todo app" "todo app" pd10
    (by decide) (by decide) (by decide) (by decide) (by decide)
  exact ⟨h.1, h.2.1⟩
